import Mathlib

/-!
Verification of `backend/main.py`: a FastAPI application instrumented with
OpenTelemetry tracing and logging. The file embeds the module-level wiring
(resource, exporter endpoints, providers), the three request handlers
(`api_root`, `make_error`, `serve_frontend`), and — modelled from the spec,
since the OpenTelemetry SDK internals are not part of this repository's
sources — the log-emission correlation step and the batch queue discipline.
-/

namespace Backend

/-- Log severities used by `main.py` (`logger.warning`, `logger.error`). -/
inductive Severity
| warning
| error
deriving DecidableEq, Repr

/-- Correlation identifiers of an OpenTelemetry span context. -/
structure SpanContext where
  traceId : Nat
  spanId : Nat
deriving DecidableEq, Repr

/-- JSON values, as produced by FastAPI's response encoding. -/
inductive Json
| str : String → Json
| num : Int → Json
| obj : List (String × Json) → Json
| arr : List Json → Json

/-- Response body: either a JSON document (FastAPI JSONResponse) or raw file
bytes (FastAPI FileResponse). -/
inductive Body
| json : Json → Body
| file : List Nat → Body

/-- An HTTP response: status code and body. -/
structure Response where
  status : Nat
  body : Body

/-- Python exceptions that can arise in `main.py`'s handlers. -/
inductive PyExc
| zeroDivisionError
deriving DecidableEq, Repr

/-- Python division `a / b`: raises ZeroDivisionError when the divisor is
zero. (Python's `/` is float division; `make_error` only ever reaches the
zero-divisor branch, so the value of the non-raising branch is irrelevant.) -/
def pyDiv (a b : Int) : Except PyExc Int :=
  if b = 0 then Except.error PyExc.zeroDivisionError else Except.ok (a / b)

/-- The shared Resource attributes (main.py lines 23-26). -/
def resource : List (String × String) :=
  [("service.name", "fastapi-backend"), ("environment", "local-dev")]

/-- External inputs fixed at module import: the directory of `main.py`
(`os.path.dirname(__file__)`) and the value of the `ALLOY_HOST` environment
variable (`none` when the variable is unset). -/
structure Config where
  backend_dir : String
  alloy_env : Option String
deriving DecidableEq, Repr

/-- Collector host (main.py line 36): `os.getenv("ALLOY_HOST", "alloy")`,
i.e. the environment value when set, the default "alloy" otherwise. -/
def alloy_host (c : Config) : String :=
  c.alloy_env.getD "alloy"

/-- Span exporter endpoint (main.py lines 37-39). -/
def trace_endpoint (c : Config) : String :=
  "http://" ++ alloy_host c ++ ":4319/v1/traces"

/-- Log exporter endpoint (main.py lines 53-55). -/
def log_endpoint (c : Config) : String :=
  "http://" ++ alloy_host c ++ ":4319/v1/logs"

/-- Path of the frontend file (main.py lines 67-69):
`os.path.join(os.path.dirname(__file__), "frontend", "index.html")`. -/
def frontend_file_path (c : Config) : String :=
  c.backend_dir ++ "/frontend/index.html"

/-- The trace provider: its only configuration relevant here is the Resource
passed at construction (main.py line 30). -/
structure TracerProvider where
  res : List (String × String)
deriving DecidableEq, Repr

/-- The logger provider: its only configuration relevant here is the Resource
passed at construction (main.py line 50). -/
structure LoggerProvider where
  res : List (String × String)
deriving DecidableEq, Repr

/-- main.py line 30: `TracerProvider(resource=resource)`. -/
def trace_provider : TracerProvider := { res := resource }

/-- main.py line 50: `SDKLoggerProvider(resource=resource)`. -/
def logger_provider : LoggerProvider := { res := resource }

/-- A finished span as handed to the span batch queue: its context plus the
Resource stamped from the provider. -/
structure Span where
  sctx : SpanContext
  res : List (String × String)
deriving DecidableEq, Repr

/-- Modelled from the spec: span creation for an inbound request
(FastAPIInstrumentor, main.py line 80; spec section 4.2 start_span). The span
is bound to the request and carries the provider's Resource. -/
def start_span (sc : SpanContext) : Span :=
  { sctx := sc, res := trace_provider.res }

/-- A log record: severity, message, optional formatted exception context
(from `exc_info=True`), free-form attributes, the correlation identifiers
copied from the span active at emission time (or `none`), and the Resource. -/
structure LogRecord where
  severity : Severity
  message : String
  excInfo : Option String
  attrs : List (String × String)
  ctx : Option SpanContext
  res : List (String × String)
deriving DecidableEq, Repr

/-- The formatted exception text attached by `exc_info=True` when the caught
exception is the ZeroDivisionError from `1 / 0`. Its exact text is
irrelevant to every claim; what matters is that it is non-empty. -/
def zeroDivTraceback : String := "ZeroDivisionError: division by zero"

/-- Modelled from the spec: log emission (spec section 4.3 emit; the
OpenTelemetry LoggingHandler wired at main.py lines 50-60 is SDK code not in
this repository). Constructs a record; if a span is active on the current
execution context, its trace/span identifiers are copied in at creation
time; the logger provider's Resource is stamped on the record. -/
def emit (sev : Severity) (msg : String) (exc : Option String)
    (attrs : List (String × String)) (octx : Option SpanContext) : LogRecord :=
  { severity := sev, message := msg, excInfo := exc, attrs := attrs,
    ctx := octx, res := logger_provider.res }

/-- Handler for `GET /api/root` (main.py lines 83-87): one warning log, then
a fixed JSON payload. FastAPI returns the dict as JSON with the route's
default status 200. -/
def api_root (octx : Option SpanContext) : Response × List LogRecord :=
  ({ status := 200,
     body := Body.json (Json.obj
       [("message", Json.str "Hello World. Log and Trace sent.")]) },
   [emit Severity.warning "API root endpoint (/api/root) was called" none
      [("client.ip", "127.0.0.1")] octx])

/-- Handler for `GET /error` (main.py lines 90-102): evaluates `1 / 0` in a
`try`, catches ZeroDivisionError, logs one error with `exc_info=True`, and
returns a fixed payload. Were the division not to raise, execution would
fall past the `try/except` and the function would return Python `None`
(modelled as `Except.ok none`). The fixed payload is named here: -/
def make_error_response : Response :=
  { status := 200,
    body := Body.json (Json.obj
      [("message", Json.str "Error log and trace span sent.")]) }

/-- Handler for `GET /error` (main.py lines 90-102); see the comment on
`make_error_response` for the control flow being modelled. -/
def make_error (octx : Option SpanContext) :
    Except PyExc (Option Response) × List LogRecord :=
  match pyDiv 1 0 with
  | Except.ok _ => (Except.ok none, [])
  | Except.error PyExc.zeroDivisionError =>
    (Except.ok (some make_error_response),
     [emit Severity.error "A simulated error occurred" (some zeroDivTraceback)
        [("error.type", "ZeroDivisionError")] octx])

/-- State of the frontend file on disk at some instant: whether
`frontend_file_path` exists and, if so, its byte content. -/
structure Fs where
  present : Bool
  content : List Nat
deriving DecidableEq, Repr

/-- Handler for `GET /` (main.py lines 104-110). Checks
`os.path.exists(frontend_file_path)` at request time. If present,
`FileResponse` sends the file's bytes with status 200. If absent, it logs
one error and executes `return «dict», 404` — a Flask idiom: FastAPI does
not interpret a returned tuple as (body, status); it JSON-encodes the whole
tuple as a two-element array and responds with the route's default status
200. -/
def serve_frontend (path : String) (octx : Option SpanContext) (fs : Fs) :
    Response × List LogRecord :=
  if fs.present then
    ({ status := 200, body := Body.file fs.content }, [])
  else
    ({ status := 200,
       body := Body.json (Json.arr
         [Json.obj [("error", Json.str "Frontend not found")], Json.num 404]) },
     [emit Severity.error ("Frontend file " ++ path ++ " not found.") none [] octx])

/-- Module import-time check (main.py lines 70-74): if the frontend file is
absent at startup, log one error (and print); nothing else is recorded —
in particular no flag consulted later by any handler. -/
def startup_check (c : Config) (startupFs : Fs) : List LogRecord :=
  if startupFs.present then []
  else [emit Severity.error
    ("Frontend file not found at: " ++ frontend_file_path c) none [] none]

/-- The module-level values of `main.py` after import, as read (only read)
by the handlers. -/
structure ModuleState where
  cfg : Config
  res : List (String × String)
  tp : TracerProvider
  lp : LoggerProvider
  traceEp : String
  logEp : String
  frontendPath : String
deriving DecidableEq, Repr

/-- Module import (main.py lines 23-80): builds the module-level values and
runs the startup existence check, whose only effect is the returned log
records. -/
def initModule (c : Config) (startupFs : Fs) : ModuleState × List LogRecord :=
  ({ cfg := c, res := resource, tp := trace_provider, lp := logger_provider,
     traceEp := trace_endpoint c, logEp := log_endpoint c,
     frontendPath := frontend_file_path c },
   startup_check c startupFs)

/-- The three routes of the application. -/
inductive Route
| apiRoot
| errorRoute
| rootRoute
deriving DecidableEq, Repr

/-- Dispatch one request to its handler. The handler reads the module state
and the request-time filesystem and produces the (possibly exceptional)
return value plus the emitted log records; the module state is returned as
the handlers leave it. -/
def dispatch (s : ModuleState) (r : Route) (fs : Fs) (octx : Option SpanContext) :
    ModuleState × Except PyExc (Option Response) × List LogRecord :=
  match r with
  | Route.apiRoot =>
    let (resp, logs) := api_root octx
    (s, Except.ok (some resp), logs)
  | Route.errorRoute =>
    let (res, logs) := make_error octx
    (s, res, logs)
  | Route.rootRoute =>
    let (resp, logs) := serve_frontend s.frontendPath octx fs
    (s, Except.ok (some resp), logs)

/-- Modelled from the spec: a batch queue (spec section 3 Batch Queue). An
ordered buffer of pending records, append-only from producers, drained in
order by the background flush; `exported` accumulates what has been
delivered to the collector. The BatchSpanProcessor / BatchLogRecordProcessor
wired at main.py lines 42-44 and 58 are SDK code not in this repository. -/
structure BatchQueue (R : Type) where
  pending : List R
  exported : List R

/-- Modelled from the spec: producer-side append (spec section 3). -/
def enqueue {R : Type} (q : BatchQueue R) (r : R) : BatchQueue R :=
  { q with pending := q.pending ++ [r] }

/-- Modelled from the spec: one background flush cycle (spec section 4.2
flush). When the collector is reachable the pending batch is sent, in
order; on transport failure the batch is dropped (best-effort, at most
once). Either way the pending buffer empties and nothing is reported to
request handlers. Returns the new queue and the records delivered in this
cycle. -/
def flushQ {R : Type} (reachable : Bool) (q : BatchQueue R) :
    BatchQueue R × List R :=
  if reachable then
    ({ pending := [], exported := q.exported ++ q.pending }, q.pending)
  else
    ({ pending := [], exported := q.exported }, [])

/-- Whole-system state: the module-level values plus the two batch queues
(the only shared mutable resources, spec section 5). -/
structure Sys where
  ms : ModuleState
  spanQ : BatchQueue Span
  logQ : BatchQueue LogRecord

/-- Processing of one inbound request: the instrumentation opens a span,
the handler runs with that span active, the emitted log records are
appended to the log queue and the finished span to the span queue; the
handler's return value becomes the response. -/
def requestStep (sys : Sys) (r : Route) (fs : Fs) (sc : SpanContext) :
    Sys × Except PyExc (Option Response) :=
  let sp := start_span sc
  let d := dispatch sys.ms r fs (some sp.sctx)
  ({ ms := d.1,
     spanQ := enqueue sys.spanQ sp,
     logQ := d.2.2.foldl enqueue sys.logQ }, d.2.1)

/-- One background flush cycle over both pipelines, with the given
collector reachability. Touches only the queues. -/
def flushSys (reachable : Bool) (sys : Sys) : Sys :=
  { ms := sys.ms,
    spanQ := (flushQ reachable sys.spanQ).1,
    logQ := (flushQ reachable sys.logQ).1 }

/-- Operations on one batch queue over its lifetime: a producer appends the
next record, or a flush cycle runs with the collector reachable or not. -/
inductive QOp
| append
| flushCycle (reachable : Bool)
deriving DecidableEq, Repr

/-- Abstract batch-queue state for the lifetime analysis: records are
identified by the sequence number assigned at append time (distinct
records, in append order), so `nextId` counts the appends so far. -/
structure QState where
  nextId : Nat
  pending : List Nat
  exported : List Nat
deriving DecidableEq, Repr

/-- The empty queue at process start. -/
def qInit : QState := { nextId := 0, pending := [], exported := [] }

/-- Modelled from the spec: one lifetime step of a batch queue (spec
section 3 Batch Queue invariant and section 4.2 flush): append adds the
freshly numbered record at the tail; a reachable flush delivers the whole
pending batch in order; an unreachable flush drops it. -/
def qStep (s : QState) (op : QOp) : QState :=
  match op with
  | QOp.append =>
    { nextId := s.nextId + 1, pending := s.pending ++ [s.nextId],
      exported := s.exported }
  | QOp.flushCycle true =>
    { nextId := s.nextId, pending := [], exported := s.exported ++ s.pending }
  | QOp.flushCycle false =>
    { nextId := s.nextId, pending := [], exported := s.exported }

/-- Run a sequence of queue operations from the empty queue. -/
def qRun (ops : List QOp) : QState := ops.foldl qStep qInit

/-- The queue invariant: the exported records followed by the pending ones
form a subsequence of the append order `0, 1, ..., nextId - 1`. -/
def qInv (s : QState) : Prop :=
  List.Sublist (s.exported ++ s.pending) (List.range s.nextId)

theorem qInv_init : qInv qInit := by
  simp [qInv, qInit]

theorem qInv_step (s : QState) (op : QOp) (h : qInv s) : qInv (qStep s op) := by
  cases op with
  | append =>
    simp only [qInv, qStep, List.range_succ]
    rw [← List.append_assoc]
    exact List.Sublist.append h (List.Sublist.refl _)
  | flushCycle reachable =>
    cases reachable with
    | true =>
      simpa [qInv, qStep] using h
    | false =>
      simp only [qInv, qStep, List.append_nil]
      exact List.Sublist.trans (List.sublist_append_left _ _) h

theorem qInv_run (ops : List QOp) : qInv (qRun ops) := by
  suffices h : ∀ s : QState, qInv s → qInv (ops.foldl qStep s) by
    exact h qInit qInv_init
  induction ops with
  | nil => intro s hs; simpa using hs
  | cons op rest ih =>
    intro s hs
    exact ih (qStep s op) (qInv_step s op hs)

/-- Any sequence of flush cycles leaves the module-level state untouched:
flushing only rewrites the two queues. -/
theorem flushSeq_ms (bs : List Bool) (sys : Sys) :
    (bs.foldl (fun s b => flushSys b s) sys).ms = sys.ms := by
  induction bs generalizing sys with
  | nil => rfl
  | cons b rest ih => exact ih (flushSys b sys)

/-- C3: every `GET /api/root` request gets status 200 with the fixed JSON
body containing the message "Hello World. Log and Trace sent.", and the
handler produces exactly one log record, at warning severity. -/
theorem C3_api_root_payload_and_log (octx : Option SpanContext) :
    (api_root octx).1.status = 200 ∧
    (api_root octx).1.body = Body.json (Json.obj
      [("message", Json.str "Hello World. Log and Trace sent.")]) ∧
    (api_root octx).2.map LogRecord.severity = [Severity.warning] :=
  ⟨rfl, rfl, rfl⟩

/-- C2: every `GET /error` request returns status 200 (never an error
status, and the simulated arithmetic fault never propagates: the handler's
outcome is a normal return of the fixed payload), the body is the fixed
JSON message "Error log and trace span sent.", and the handler produces
exactly one log record, at error severity, carrying a non-empty exception
context attribute. -/
theorem C2_make_error_ok_and_one_error_log (octx : Option SpanContext) :
    (make_error octx).1 = Except.ok (some make_error_response) ∧
    make_error_response.status = 200 ∧
    make_error_response.body = Body.json (Json.obj
      [("message", Json.str "Error log and trace span sent.")]) ∧
    (make_error octx).2.map LogRecord.severity = [Severity.error] ∧
    (make_error octx).2.map LogRecord.excInfo = [some zeroDivTraceback] ∧
    0 < zeroDivTraceback.length :=
  ⟨rfl, rfl, rfl, rfl, rfl, by decide⟩

/-- C9: the `GET /error` handler always terminates normally: `1 / 0` raises
ZeroDivisionError, the `except` clause catches it, and the handler returns
from the `except` branch — it neither falls through to return `None` nor
propagates any exception. -/
theorem C9_make_error_always_returns (octx : Option SpanContext) :
    pyDiv 1 0 = Except.error PyExc.zeroDivisionError ∧
    (make_error octx).1 = Except.ok (some make_error_response) :=
  ⟨rfl, rfl⟩

/-- C1 (evaluation at the failing input): when the frontend file is absent,
`serve_frontend` logs exactly one error but responds with HTTP status 200
whose body is the JSON array encoding of the returned Python tuple — not an
HTTP not-found status; when the file is present, it responds 200 with the
file's exact bytes. -/
theorem C1_serve_frontend_missing_file_eval :
    (serve_frontend "/app/backend/frontend/index.html" none
        { present := false, content := [] }).1.status = 200 ∧
    (serve_frontend "/app/backend/frontend/index.html" none
        { present := false, content := [] }).1.body
      = Body.json (Json.arr
          [Json.obj [("error", Json.str "Frontend not found")], Json.num 404]) ∧
    (serve_frontend "/app/backend/frontend/index.html" none
        { present := false, content := [] }).2.map LogRecord.severity
      = [Severity.error] ∧
    (serve_frontend "/app/backend/frontend/index.html" none
        { present := true, content := [60, 104, 116, 109, 108, 62] }).1
      = { status := 200, body := Body.file [60, 104, 116, 109, 108, 62] } :=
  ⟨rfl, rfl, rfl, rfl⟩

/-- C6: the collector destination is selected solely by the ALLOY_HOST
environment value, defaulting to "alloy" when unset; for host h the span
exporter endpoint is http://h:4319/v1/traces and the log exporter endpoint
is http://h:4319/v1/logs — two endpoints on the same configurable host. -/
theorem C6_exporter_endpoints (c : Config) :
    trace_endpoint c = "http://" ++ alloy_host c ++ ":4319/v1/traces" ∧
    log_endpoint c = "http://" ++ alloy_host c ++ ":4319/v1/logs" ∧
    (c.alloy_env = none → alloy_host c = "alloy") ∧
    (∀ h : String, c.alloy_env = some h → alloy_host c = h) := by
  refine ⟨rfl, rfl, ?_, ?_⟩
  · intro h
    simp [alloy_host, h]
  · intro h hh
    simp [alloy_host, hh]

/-- Witness for C6 at a concrete configuration with ALLOY_HOST unset. -/
theorem C6_exporter_endpoints_witness :
    trace_endpoint { backend_dir := "/app/backend", alloy_env := none }
      = "http://alloy:4319/v1/traces" ∧
    alloy_host { backend_dir := "/app/backend", alloy_env := none } = "alloy" := by
  have h := C6_exporter_endpoints { backend_dir := "/app/backend", alloy_env := none }
  refine ⟨?_, h.2.2.1 rfl⟩
  rw [h.1, h.2.2.1 rfl]
  rfl

/-- C4: telemetry export failure is invisible to requests. Any sequence of
background flush cycles — each succeeding or failing arbitrarily, modelling
an unreachable collector — leaves every subsequent request's outcome
(status, body, exception-or-not) unchanged; moreover a request's outcome
does not depend on the queue contents at all, so export happens off the
request's critical path. -/
theorem C4_export_failure_invisible (sys : Sys) (bs : List Bool) (r : Route)
    (fs : Fs) (sc : SpanContext) (q1 : BatchQueue Span) (q2 : BatchQueue LogRecord) :
    (requestStep (bs.foldl (fun s b => flushSys b s) sys) r fs sc).2
      = (requestStep sys r fs sc).2 ∧
    (requestStep { ms := sys.ms, spanQ := q1, logQ := q2 } r fs sc).2
      = (requestStep sys r fs sc).2 := by
  constructor
  · show (dispatch (bs.foldl (fun s b => flushSys b s) sys).ms r fs _).2.1
      = (dispatch sys.ms r fs _).2.1
    rw [flushSeq_ms]
  · rfl

/-- C5: correlation identifiers on log records are determined at emission
time — a record emitted under an active span carries exactly that span's
trace and span identifiers, a record emitted with no active span carries
none — and neither enqueueing nor flushing ever mutates or backfills a
record: append adds the record unchanged and a flush cycle only moves
records that were already in the queue. -/
theorem C5_log_correlation_at_emission (sev : Severity) (msg : String)
    (exc : Option String) (attrs : List (String × String)) (sc : SpanContext)
    (b : Bool) (q : BatchQueue LogRecord) (rec0 : LogRecord) :
    (emit sev msg exc attrs (some sc)).ctx = some sc ∧
    (emit sev msg exc attrs none).ctx = none ∧
    (enqueue q rec0).pending = q.pending ++ [rec0] ∧
    (enqueue q rec0).exported = q.exported ∧
    (∀ rec : LogRecord,
      rec ∈ (flushQ b q).1.pending ++ (flushQ b q).1.exported ++ (flushQ b q).2 →
      rec ∈ q.pending ++ q.exported) := by
  refine ⟨rfl, rfl, rfl, rfl, ?_⟩
  intro rec hrec
  cases b with
  | true =>
    simp only [flushQ, if_pos] at hrec
    simp only [List.mem_append] at hrec ⊢
    tauto
  | false =>
    simp only [flushQ, if_neg] at hrec
    simp only [List.mem_append] at hrec ⊢
    tauto

/-- Witness for C5: a concrete record that survives a reachable flush was
already in the queue. -/
theorem C5_log_correlation_at_emission_witness :
    emit Severity.warning "w" none [] none ∈
      ([emit Severity.warning "w" none [] none] ++ ([] : List LogRecord)) := by
  have h := (C5_log_correlation_at_emission Severity.warning "w" none [] ⟨0, 0⟩
    true { pending := [emit Severity.warning "w" none [] none], exported := [] }
    (emit Severity.warning "w" none [] none)).2.2.2.2
  exact h _ (by simp [flushQ])

/-- C7: a single Resource value is built once and wired to both pipelines —
the tracer provider and the logger provider hold that same Resource, and
every span and every log record is stamped with it, so all emitted
telemetry carries identical Resource attributes. -/
theorem C7_shared_resource (sev : Severity) (msg : String) (exc : Option String)
    (attrs : List (String × String)) (octx : Option SpanContext) (sc : SpanContext) :
    trace_provider.res = resource ∧
    logger_provider.res = resource ∧
    (start_span sc).res = resource ∧
    (emit sev msg exc attrs octx).res = resource :=
  ⟨rfl, rfl, rfl, rfl⟩

/-- C8: over every sequence of appends and flush cycles (with arbitrary
collector reachability), the exported stream contains no record twice and
is in append order; and a flush cycle immediately following another exports
nothing new — flush is idempotent on already-exported records. -/
theorem C8_flush_exactly_once_in_order (ops : List QOp) (b1 b2 : Bool) :
    (qRun ops).exported.Nodup ∧
    List.Sorted (· < ·) (qRun ops).exported ∧
    (qStep (qStep (qRun ops) (QOp.flushCycle b1)) (QOp.flushCycle b2)).exported
      = (qStep (qRun ops) (QOp.flushCycle b1)).exported := by
  have hinv := qInv_run ops
  have hsub : List.Sublist (qRun ops).exported (List.range (qRun ops).nextId) :=
    List.Sublist.trans (List.sublist_append_left _ _) hinv
  refine ⟨List.Nodup.sublist hsub (List.nodup_range _), ?_, ?_⟩
  · exact List.Pairwise.sublist hsub (List.sorted_lt_range _)
  · cases b1 <;> cases b2 <;> simp [qStep]

/-- C10: no handler mutates the module-level state (configuration,
Resource, providers, endpoints, frontend path): dispatching any request
returns that state unchanged; and the behaviour of every handler —
`serve_frontend` in particular — is the same whatever filesystem state the
startup existence check saw, depending only on the file's existence at
request time. -/
theorem C10_handlers_read_only (c : Config) (sf1 sf2 : Fs) (r : Route)
    (fs : Fs) (octx : Option SpanContext) :
    (dispatch (initModule c sf1).1 r fs octx).1 = (initModule c sf1).1 ∧
    dispatch (initModule c sf1).1 r fs octx
      = dispatch (initModule c sf2).1 r fs octx := by
  refine ⟨?_, rfl⟩
  cases r <;> rfl

end Backend
